import Mathlib

/-!
Verification development for the Granite Docling enrichment pipeline
(`docling_handler.py`).

The embedding models the enrichment-pipeline core of `DoclingHandler`:
the stage orchestration in `convert_document` (the post-conversion part),
the five enrichment stages, and the pure text helpers they use.

Modelling conventions:
* Python strings are Lean `String`s; the string helpers (`split`, `lower`,
  `replace`, substring `in`) are re-implemented over `List Char` with
  Python's semantics (ASCII case folding, which covers every string the
  code manipulates).
* Python floats are modelled by exact rationals (`ℚ`); the readability
  formula only involves small exact values.
* A computation that can raise is modelled with `PyRes`; external
  collaborators (the BLIP captioning model, the `re` regex engine) are
  oracle parameters (`Oracles`), so a run of the orchestrator is a pure
  function of the conversion result, the exported text, the flags and the
  oracle responses.
* An attribute that may be absent (duck-typed probes via `hasattr` /
  `getattr`) is an `Option`; an attribute whose use may raise (e.g.
  `len(table.rows)` on a malformed table) is an `Option (PyRes _)`.
-/

set_option maxRecDepth 10000

namespace DoclingSpec

/-- Result of a Python computation: a value, or a raised exception
(carrying the exception text). -/
inductive PyRes (α : Type) where
  | ok (a : α)
  | exn (e : String)
deriving DecidableEq

/-- ASCII whitespace recognised by Python `str.split()` /
`str.strip()` (space, tab, newline, carriage return, vertical tab,
form feed). -/
def isSpaceChar (c : Char) : Bool :=
  c == ' ' || c == '\t' || c == '\n' || c == '\r' || c == Char.ofNat 11 || c == Char.ofNat 12

/-- Whether `pat` is a prefix of `s` (both as char lists). -/
def startsWithL : List Char → List Char → Bool
  | _, [] => true
  | [], _ :: _ => false
  | c :: cs, d :: ds => c == d && startsWithL cs ds

/-- Python substring test `pat in s`. -/
def containsSub : List Char → List Char → Bool
  | [], pat => pat.isEmpty
  | c :: rest, pat => startsWithL (c :: rest) pat || containsSub rest pat

/-- Scanner for Python `s.replace(pat, rep)`, structurally recursive on
a character-count fuel (every step consumes at least one character of
`s`, so `s.length` fuel never runs out; the fuel-exhausted branch is
unreachable). -/
def replaceAllFuel : Nat → List Char → List Char → List Char → List Char
  | 0, s, _, _ => s
  | fuel + 1, s, pat, rep =>
    match s with
    | [] => []
    | c :: rest =>
      if !pat.isEmpty && startsWithL (c :: rest) pat then
        rep ++ replaceAllFuel fuel (rest.drop (pat.length - 1)) pat rep
      else
        c :: replaceAllFuel fuel rest pat rep

/-- Python `s.replace(pat, rep)`: replace every non-overlapping occurrence
of `pat`, scanning left to right.  (For an empty `pat` Python would
interleave `rep` everywhere; the code only ever replaces non-empty
patterns, and this model leaves `s` unchanged in that unused case.) -/
def replaceAll (s pat rep : List Char) : List Char :=
  replaceAllFuel s.length s pat rep

/-- Scanner for Python `s.split(sep)`, structurally recursive on a
character-count fuel (unreachable fuel-exhausted branch, as for
`replaceAllFuel`). -/
def splitOnSubFuel : Nat → List Char → List Char → List (List Char)
  | 0, s, _ => [s]
  | fuel + 1, s, pat =>
    match s with
    | [] => [[]]
    | c :: rest =>
      if !pat.isEmpty && startsWithL (c :: rest) pat then
        [] :: splitOnSubFuel fuel (rest.drop (pat.length - 1)) pat
      else
        match splitOnSubFuel fuel rest pat with
        | [] => [[c]]
        | piece :: more => (c :: piece) :: more

/-- Python `s.split(sep)` for a non-empty separator: split at every
non-overlapping occurrence, keeping empty pieces; always yields at least
one piece. -/
def splitOnSub (s pat : List Char) : List (List Char) :=
  splitOnSubFuel s.length s pat

/-- Python `s.split()` (no argument): split on runs of whitespace,
dropping empty pieces.  `cur` accumulates the current word reversed. -/
def splitWsGo (cur : List Char) : List Char → List (List Char)
  | [] => if cur.isEmpty then [] else [cur.reverse]
  | c :: rest =>
    if isSpaceChar c then
      if cur.isEmpty then splitWsGo [] rest
      else cur.reverse :: splitWsGo [] rest
    else splitWsGo (c :: cur) rest

/-- Python `text.lower()` (ASCII case folding; all strings the handler
compares case-insensitively are ASCII). -/
def pyLower (s : String) : String := String.mk (s.data.map Char.toLower)

/-- Python `pat in s`. -/
def pyContains (s pat : String) : Bool := containsSub s.data pat.data

/-- Python `s.replace(pat, rep)`. -/
def pyReplace (s pat rep : String) : String := String.mk (replaceAll s.data pat.data rep.data)

/-- Python `s.split(sep)` for a non-empty separator. -/
def pySplit (s sep : String) : List String := (splitOnSub s.data sep.data).map String.mk

/-- Python `s.split()` (whitespace split dropping empties). -/
def pySplitWs (s : String) : List String := (splitWsGo [] s.data).map String.mk

/-- Truthiness of Python `s.strip()`: true iff `s` has a
non-whitespace character. -/
def pyStripTruthy (s : String) : Bool := s.data.any (fun c => !isSpaceChar c)

/-!
LexicalTranslator: `_translate_to_french` / `_translate_to_english`.
The two fixed tables below are transcribed from the source dicts in
insertion order (Python dict iteration order).
-/

/-- The `translations` dict of `_translate_to_french`. -/
def frTranslations : List (String × String) :=
  [("a person", "une personne"), ("a man", "un homme"), ("a woman", "une femme"),
   ("a dog", "un chien"), ("a cat", "un chat"), ("a car", "une voiture"),
   ("a building", "un bâtiment"), ("a tree", "un arbre"), ("a table", "une table"),
   ("a chair", "une chaise"), ("text", "texte"), ("document", "document"),
   ("chart", "graphique"), ("diagram", "diagramme"), ("image", "image")]

/-- The `translations` dict of `_translate_to_english`. -/
def enTranslations : List (String × String) :=
  [("une personne", "a person"), ("un homme", "a man"), ("une femme", "a woman"),
   ("un chien", "a dog"), ("un chat", "a cat"), ("une voiture", "a car"),
   ("un bâtiment", "a building"), ("un arbre", "a tree"), ("une table", "a table"),
   ("une chaise", "a chair"), ("texte", "text"), ("document", "document"),
   ("graphique", "chart"), ("diagramme", "diagram"), ("image", "image")]

/-- The loop of `_translate_to_french`: first entry whose key occurs in
`textLower` wins, and the replacement is performed on the original
`text` (case-sensitively, as in the source). -/
def translateFirstFr : List (String × String) → String → String → String
  | [], text, _ => text
  | (en, fr) :: rest, text, textLower =>
    if pyContains textLower en then pyReplace text en fr
    else translateFirstFr rest text textLower

/-- `_translate_to_french`. -/
def translateToFrench (text : String) : String :=
  translateFirstFr frTranslations text (pyLower text)

/-- The loop of `_translate_to_english`: first entry whose key occurs in
`text` (case-sensitively) wins. -/
def translateFirstEn : List (String × String) → String → String
  | [], text => text
  | (fr, en) :: rest, text =>
    if pyContains text fr then pyReplace text fr en
    else translateFirstEn rest text

/-- `_translate_to_english`. -/
def translateToEnglish (text : String) : String :=
  translateFirstEn enTranslations text

/-!
FormulaEnricher: `_enrich_single_formula`.
-/

/-- A Python value that is expected to be a string: either an actual
string, or some other object (on which string methods raise
`TypeError`).  `_enrich_single_formula`'s `except` branch exists for such
non-text inputs. -/
inductive PyVal where
  | str (s : String)
  | nonStr (tag : Nat)
deriving DecidableEq

/-- The enrichment record built by `_enrich_single_formula`.  The
success path fills every key; the `except` fallback dict has no
`latex` / `simplified` keys, modelled by `none`. -/
structure FormulaEnrichment where
  formula : PyVal
  type : String
  descriptionFr : String
  descriptionEn : String
  latex : Option String
  simplified : Option String
deriving DecidableEq

/-- Delimiter stripping at the top of `_enrich_single_formula`:
`formula.replace('$','').replace('\\[','').replace('\\]','').replace('\\(','').replace('\\)','')`. -/
def cleanFormulaStr (s : String) : String :=
  pyReplace (pyReplace (pyReplace (pyReplace (pyReplace s "$" "") "\\[" "") "\\]" "") "\\(" "") "\\)" ""

/-- The try-body of `_enrich_single_formula` after delimiter stripping:
default record, then the ordered `if`/`elif` type-detection chain. -/
def enrichSingleFormulaCore (cleanFormula : String) : FormulaEnrichment :=
  let base : FormulaEnrichment :=
    { formula := PyVal.str cleanFormula, type := "mathematical_expression",
      descriptionFr := "Expression mathématique", descriptionEn := "Mathematical expression",
      latex := some ("$" ++ cleanFormula ++ "$"), simplified := some cleanFormula }
  if pyContains cleanFormula "+" || pyContains cleanFormula "-" then
    { base with type := "arithmetic", descriptionFr := "Opération arithmétique",
                descriptionEn := "Arithmetic operation" }
  else if pyContains cleanFormula "=" then
    { base with type := "equation", descriptionFr := "Équation mathématique",
                descriptionEn := "Mathematical equation" }
  else if pyContains cleanFormula "^" || pyContains cleanFormula "**" then
    { base with type := "exponential", descriptionFr := "Expression exponentielle",
                descriptionEn := "Exponential expression" }
  else base

/-- `_enrich_single_formula`: on a string input the try-body runs; on a
non-string input `.replace` raises and the `except` branch returns the
fixed "unrecognized formula" fallback dict. -/
def enrichSingleFormula (v : PyVal) : FormulaEnrichment :=
  match v with
  | PyVal.str s => enrichSingleFormulaCore (cleanFormulaStr s)
  | PyVal.nonStr _ =>
    { formula := v, type := "unknown", descriptionFr := "Formule non reconnue",
      descriptionEn := "Unrecognized formula", latex := none, simplified := none }

/-!
TableEnricher: `_analyze_single_table` and the loop of `_analyze_tables`.
-/

/-- A raw table object: each of `rows` / `columns` may be absent
(`hasattr` false), or present with `len(...)` returning a count, or
present but malformed so that `len(...)` raises. -/
structure PyTable where
  rowsAttr : Option (PyRes Nat)
  colsAttr : Option (PyRes Nat)
deriving DecidableEq

/-- The analysis dict of `_analyze_single_table`.  The success path
fills every key and has no `error` key; the `except` fallback dict has
only `index`, `error` and `type`, modelled by `none` elsewhere. -/
structure TableAnalysis where
  index : Nat
  type : String
  descriptionFr : Option String
  descriptionEn : Option String
  rows : Option Nat
  columns : Option Nat
  hasHeaders : Option Bool
  dataTypes : Option (List String)
  summary : Option String
  error : Option String
deriving DecidableEq

/-- The try-body of `_analyze_single_table`: read the counts (absent
attribute keeps the initialised 0; a raising `len` propagates), then the
header heuristic and the summary template. -/
def analyzeSingleTableBody (t : PyTable) (index : Nat) : PyRes TableAnalysis :=
  let readRows : PyRes Nat :=
    match t.rowsAttr with
    | none => PyRes.ok 0
    | some r => r
  match readRows with
  | PyRes.exn e => PyRes.exn e
  | PyRes.ok rows =>
    let readCols : PyRes Nat :=
      match t.colsAttr with
      | none => PyRes.ok 0
      | some r => r
    match readCols with
    | PyRes.exn e => PyRes.exn e
    | PyRes.ok cols =>
      PyRes.ok
        { index := index, type := "data_table",
          descriptionFr := some (if 0 < rows then "Tableau avec en-têtes" else "Tableau de données"),
          descriptionEn := some (if 0 < rows then "Table with headers" else "Data table"),
          rows := some rows, columns := some cols,
          hasHeaders := some (decide (0 < rows)),
          dataTypes := some [],
          summary := some (if 0 < rows ∧ 0 < cols then
              "Tableau de " ++ toString rows ++ " lignes et " ++ toString cols ++ " colonnes"
            else ""),
          error := none }

/-- The `except` fallback dict of `_analyze_single_table` (also the
per-item fallback appended by the loop in `_analyze_tables`, which has
the same shape). -/
def tableFallback (index : Nat) (e : String) : TableAnalysis :=
  { index := index, type := "unknown", descriptionFr := none, descriptionEn := none,
    rows := none, columns := none, hasHeaders := none, dataTypes := none,
    summary := none, error := some e }

/-- `_analyze_single_table`: try-body, with the `except` branch
returning the fallback dict.  Total: it never raises. -/
def analyzeSingleTable (t : PyTable) (index : Nat) : TableAnalysis :=
  match analyzeSingleTableBody t index with
  | PyRes.ok a => a
  | PyRes.exn e => tableFallback index e

/-- The `for i, table in enumerate(tables)` loop of `_analyze_tables`.
Its own `except` clause (appending the same `{index, error, "unknown"}`
dict) is unreachable because `_analyze_single_table` never raises. -/
def tablesLoop (i : Nat) : List PyTable → List TableAnalysis
  | [] => []
  | t :: rest => analyzeSingleTable t i :: tablesLoop (i + 1) rest

/-!
CaptionEnricher: `_generate_image_description` and the loop of
`_add_image_descriptions`.
-/

/-- A raw image object (opaque to the core; the oracle interprets it). -/
structure PyImage where
  id : Nat
deriving DecidableEq

/-- One entry of the `image_descriptions` list. -/
structure ImageDescription where
  index : Nat
  descriptionFr : String
  descriptionEn : String
deriving DecidableEq

/-- One `re` match object: `match.group()` (a string in reality; a
`PyVal` so that the defensive non-text path of
`_enrich_single_formula` is representable) and `match.span()`. -/
structure RegexMatch where
  group : PyVal
  span : Nat × Nat
deriving DecidableEq

/-- External collaborators: the BLIP captioning pipeline
(`image_processor` + `image_model.generate` + `decode`, lumped into one
call that returns a caption or raises), and the `re` regex engine
(`re.finditer`). -/
structure Oracles where
  caption : PyImage → PyRes String
  finditer : String → String → List RegexMatch

/-- `_generate_image_description`: run the captioning model and
translate the caption to French; on any failure the `except` branch
returns the fixed string `"Image avec contenu visuel"`.  Total: it
never raises. -/
def generateImageDescription (o : Oracles) (img : PyImage) : String :=
  match o.caption img with
  | PyRes.ok caption => translateToFrench caption
  | PyRes.exn _ => "Image avec contenu visuel"

/-- The try-body of one iteration of the images loop in
`_add_image_descriptions`.  The loop's `except` clause (appending
`{"Description non disponible", "Description not available"}`) is
unreachable because `_generate_image_description` and
`_translate_to_english` never raise. -/
def imageLoopItem (o : Oracles) (i : Nat) (img : PyImage) : ImageDescription :=
  let description := generateImageDescription o img
  { index := i, descriptionFr := description, descriptionEn := translateToEnglish description }

/-- The `for i, image in enumerate(images)` loop of
`_add_image_descriptions`. -/
def imagesLoop (o : Oracles) (i : Nat) : List PyImage → List ImageDescription
  | [] => []
  | img :: rest => imageLoopItem o i img :: imagesLoop o (i + 1) rest

/-!
Formula stage: `_enrich_formulas`.
-/

/-- One entry of the `formula_enrichments` list. -/
structure FormulaOut where
  original : PyVal
  enriched : FormulaEnrichment
  position : Nat × Nat
deriving DecidableEq

/-- The try-body of one iteration of the inner matches loop of
`_enrich_formulas`.  The loop's `except` clause (which appends nothing)
is unreachable because `_enrich_single_formula` never raises. -/
def formulaMatchItem (m : RegexMatch) : FormulaOut :=
  { original := m.group, enriched := enrichSingleFormula m.group, position := m.span }

/-- The `for match in matches` loop of `_enrich_formulas`. -/
def formulaMatchesLoop (ms : List RegexMatch) : List FormulaOut :=
  ms.map formulaMatchItem

/-- The `math_patterns` list of `_enrich_formulas` (raw regex source
strings, interpreted by the `re` oracle). -/
def mathPatterns : List String :=
  ["\\$[^$]+\\$",
   "\\\\\\[[^\\]]+\\\\\\]",
   "\\\\\\([^)]+\\\\\\)",
   "[a-zA-Z]\\s*[=<>]\\s*[a-zA-Z0-9+\\-*/^()]+",
   "[0-9]+\\s*[+\\-*/]\\s*[0-9]+"]

/-- The `for pattern in math_patterns` outer loop of
`_enrich_formulas`: matches of all patterns concatenated in pattern
order. -/
def formulasLoop (o : Oracles) (content : String) : List FormulaOut :=
  mathPatterns.foldr (fun pat acc => formulaMatchesLoop (o.finditer pat content) ++ acc) []

/-!
ContentStatsEnricher: `_enhance_content` and `_calculate_readability`.
-/

/-- The `stats` dict of `_enhance_content`. -/
structure ContentStatistics where
  wordCount : Nat
  characterCount : Nat
  lineCount : Nat
  paragraphCount : Nat
deriving DecidableEq

/-- The `content_enhancement` dict. -/
structure ContentEnhancement where
  statistics : ContentStatistics
  contentType : String
  languageDetected : String
  readabilityScore : ℚ
deriving DecidableEq

/-- The statistics computation of `_enhance_content`. -/
def contentStatisticsOf (content : String) : ContentStatistics :=
  { wordCount := (pySplitWs content).length,
    characterCount := content.length,
    lineCount := (pySplit content "\n").length,
    paragraphCount := ((pySplit content "\n\n").filter pyStripTruthy).length }

/-- Table marker check of `_enhance_content`:
`"table" in content.lower() or "|" in content`. -/
def hasTableMarker (content : String) : Bool :=
  pyContains (pyLower content) "table" || pyContains content "|"

/-- Image marker check of `_enhance_content`:
`"image" in content.lower() or "![image]" in content`. -/
def hasImageMarker (content : String) : Bool :=
  pyContains (pyLower content) "image" || pyContains content "![image]"

/-- Formula marker check of `_enhance_content`:
`any(char in content for char in ['$', '\\[', '\\('])`. -/
def hasFormulaMarker (content : String) : Bool :=
  pyContains content "$" || pyContains content "\\[" || pyContains content "\\("

/-- The content-type detection of `_enhance_content`: three independent
`if` statements, each unconditionally overwriting the classification. -/
def detectContentType (content : String) : String :=
  let t0 := "document"
  let t1 := if hasTableMarker content then "document_with_tables" else t0
  let t2 := if hasImageMarker content then "document_with_images" else t1
  let t3 := if hasFormulaMarker content then "document_with_formulas" else t2
  t3

/-- Python `min(a, b)` on two numbers (kernel-reducible form of `min`). -/
def ratMin (a b : ℚ) : ℚ := if a ≤ b then a else b

/-- Python `max(a, b)` on two numbers (kernel-reducible form of `max`). -/
def ratMax (a b : ℚ) : ℚ := if a ≤ b then b else a

/-- `_calculate_readability`.  Python floats are modelled by exact
rationals; `0.5` is `1 / 2`.  The Python guard `len(sentences) == 0` is
kept although `str.split('.')` always yields at least one piece; the
`except` branch returning `50.0` is unreachable for string input (the
body only splits, sums and divides with a guarded denominator) and so
does not appear. -/
def calculateReadability (text : String) : ℚ :=
  let words := pySplitWs text
  let sentences := pySplit text "."
  if sentences.length = 0 ∨ words.length = 0 then 0
  else
    let avgWordsPerSentence : ℚ := (words.length : ℚ) / (sentences.length : ℚ)
    let avgCharsPerWord : ℚ := ((words.map String.length).sum : ℚ) / (words.length : ℚ)
    let readability : ℚ := 100 - avgWordsPerSentence * (1 / 2) - avgCharsPerWord * 2
    ratMax 0 (ratMin 100 readability)

/-!
StructureAnalyzer: `_analyze_document_structure`.
-/

/-- A raw document element: optional `label`, `text`, `level`,
`list_type` attributes (read with `getattr` defaults). -/
structure PyElement where
  label : Option String
  text : Option String
  level : Option Nat
  listType : Option String
deriving DecidableEq

/-- One headings entry. -/
structure HeadingRec where
  text : String
  level : Nat
deriving DecidableEq

/-- One lists entry. -/
structure ListRec where
  text : String
  type : String
deriving DecidableEq

/-- The `structure` dict.  `sections`, `figures`, `tables` and
`formulas` are never populated by this pass (they stay empty). -/
structure DocStructure where
  sections : List String
  headings : List HeadingRec
  lists : List ListRec
  figures : List String
  tables : List String
  formulas : List String
deriving DecidableEq

/-- The freshly initialised `structure` dict. -/
def emptyStructure : DocStructure :=
  { sections := [], headings := [], lists := [], figures := [], tables := [], formulas := [] }

/-- One iteration of the elements loop of
`_analyze_document_structure`. -/
def structureStep (st : DocStructure) (e : PyElement) : DocStructure :=
  match e.label with
  | none => st
  | some l =>
    if l == "heading" then
      { st with headings := st.headings ++ [{ text := e.text.getD "", level := e.level.getD 1 }] }
    else if l == "list" then
      { st with lists := st.lists ++ [{ text := e.text.getD "", type := e.listType.getD "bullet" }] }
    else st

/-- The elements loop of `_analyze_document_structure`. -/
def buildStructure (els : List PyElement) : DocStructure :=
  els.foldl structureStep emptyStructure

/-!
The orchestrator: `convert_document` (the enhanced-processing part,
after the external conversion produced `result` and the exported
`content`).
-/

/-- The `result.document` object as the stages probe it: each of
`images` / `tables` / `elements` may be absent (`hasattr` false), or
present and iterable, or present but malformed so that iterating it
raises inside the stage's try-block. -/
structure PyDocument where
  imagesAttr : Option (PyRes (List PyImage))
  tablesAttr : Option (PyRes (List PyTable))
  elementsAttr : Option (PyRes (List PyElement))
deriving DecidableEq

/-- The handler readiness booleans consulted as stage preconditions. -/
structure HandlerState where
  imageModelLoaded : Bool
  formulaModelLoaded : Bool
deriving DecidableEq

/-- The feature flags of `convert_document`. -/
structure FeatureFlags where
  includeImages : Bool
  includeTables : Bool
  includeImageDescriptions : Bool
  includeFormulaEnrichment : Bool
  enhanceContentFlag : Bool
deriving DecidableEq

/-- The `metadata` sub-dict of the enhanced result. -/
structure Metadata where
  filePath : String
  processingTime : Option Nat
  featuresUsed : List String
deriving DecidableEq

/-- The `enhanced_result` dict.  A stage key that has not been written
is `none`. -/
structure Aggregate where
  content : String
  outputFormat : String
  metadata : Metadata
  imageDescriptions : Option (List ImageDescription)
  formulaEnrichments : Option (List FormulaOut)
  tableAnalysis : Option (List TableAnalysis)
  contentEnhancement : Option ContentEnhancement
  documentStructure : Option DocStructure
deriving DecidableEq

/-- The try-body of `_add_image_descriptions`: the inner
`image_model_loaded` re-check, the `hasattr` probe (absent attribute
means an empty images list, so the key is still written — vacuous
success), the loop, and the single key write. -/
def addImageDescriptionsBody (o : Oracles) (st : HandlerState) (doc : PyDocument)
    (a : Aggregate) : PyRes Aggregate :=
  if st.imageModelLoaded then
    match doc.imagesAttr with
    | none => PyRes.ok { a with imageDescriptions := some (imagesLoop o 0 []) }
    | some (PyRes.exn e) => PyRes.exn e
    | some (PyRes.ok images) => PyRes.ok { a with imageDescriptions := some (imagesLoop o 0 images) }
  else PyRes.ok a

/-- `_add_image_descriptions`: stage-level `except` returns the
aggregate unchanged. -/
def addImageDescriptions (o : Oracles) (st : HandlerState) (doc : PyDocument)
    (a : Aggregate) : Aggregate :=
  match addImageDescriptionsBody o st doc a with
  | PyRes.ok a2 => a2
  | PyRes.exn _ => a

/-- The try-body of `_enrich_formulas`: the inner `formula_model_loaded`
re-check, the pattern/matches loops over `content`, and the single key
write.  Nothing in the body can raise. -/
def enrichFormulasBody (o : Oracles) (st : HandlerState) (a : Aggregate) : PyRes Aggregate :=
  if st.formulaModelLoaded then
    PyRes.ok { a with formulaEnrichments := some (formulasLoop o a.content) }
  else PyRes.ok a

/-- `_enrich_formulas`: stage-level `except` returns the aggregate
unchanged. -/
def enrichFormulas (o : Oracles) (st : HandlerState) (a : Aggregate) : Aggregate :=
  match enrichFormulasBody o st a with
  | PyRes.ok a2 => a2
  | PyRes.exn _ => a

/-- The try-body of `_analyze_tables`: the `hasattr` probe (absent
attribute means an empty tables list; the key is still written), the
loop, and the single key write. -/
def analyzeTablesBody (doc : PyDocument) (a : Aggregate) : PyRes Aggregate :=
  match doc.tablesAttr with
  | none => PyRes.ok { a with tableAnalysis := some (tablesLoop 0 []) }
  | some (PyRes.exn e) => PyRes.exn e
  | some (PyRes.ok tables) => PyRes.ok { a with tableAnalysis := some (tablesLoop 0 tables) }

/-- `_analyze_tables`: stage-level `except` returns the aggregate
unchanged. -/
def analyzeTables (doc : PyDocument) (a : Aggregate) : Aggregate :=
  match analyzeTablesBody doc a with
  | PyRes.ok a2 => a2
  | PyRes.exn _ => a

/-- The `content_enhancement` dict built by `_enhance_content` from
`content`. -/
def contentEnhancementOf (content : String) : ContentEnhancement :=
  { statistics := contentStatisticsOf content,
    contentType := detectContentType content,
    languageDetected := "fr",
    readabilityScore := calculateReadability content }

/-- The try-body of `_enhance_content`: statistics, content-type
detection, language tag and readability over `content`, and the single
key write.  Nothing in the body can raise on a string `content`. -/
def enhanceContentBody (a : Aggregate) : PyRes Aggregate :=
  PyRes.ok { a with contentEnhancement := some (contentEnhancementOf a.content) }

/-- `_enhance_content`: stage-level `except` returns the aggregate
unchanged. -/
def enhanceContent (a : Aggregate) : Aggregate :=
  match enhanceContentBody a with
  | PyRes.ok a2 => a2
  | PyRes.exn _ => a

/-- The try-body of `_analyze_document_structure`: the `hasattr` probe
(absent attribute means the empty structure is still written), the
elements loop, and the single key write. -/
def analyzeDocumentStructureBody (doc : PyDocument) (a : Aggregate) : PyRes Aggregate :=
  match doc.elementsAttr with
  | none => PyRes.ok { a with documentStructure := some emptyStructure }
  | some (PyRes.exn e) => PyRes.exn e
  | some (PyRes.ok els) => PyRes.ok { a with documentStructure := some (buildStructure els) }

/-- `_analyze_document_structure`: stage-level `except` returns the
aggregate unchanged. -/
def analyzeDocumentStructure (doc : PyDocument) (a : Aggregate) : Aggregate :=
  match analyzeDocumentStructureBody doc a with
  | PyRes.ok a2 => a2
  | PyRes.exn _ => a

/-- `enhanced_result["metadata"]["features_used"].append(f)`. -/
def pushFeature (a : Aggregate) (f : String) : Aggregate :=
  { a with metadata := { a.metadata with featuresUsed := a.metadata.featuresUsed ++ [f] } }

/-- The `enhanced_result` dict as first built in `convert_document`. -/
def initialAggregate (content outputFormat filePath : String) : Aggregate :=
  { content := content, outputFormat := outputFormat,
    metadata := { filePath := filePath, processingTime := none, featuresUsed := [] },
    imageDescriptions := none, formulaEnrichments := none, tableAnalysis := none,
    contentEnhancement := none, documentStructure := none }

/-- The enhanced-processing part of `convert_document`: the five stage
calls in fixed order, each guarded by its flag/precondition condition,
each followed by an unconditional append of the stage name to
`features_used`. -/
def convertDocument (o : Oracles) (st : HandlerState) (flags : FeatureFlags)
    (doc : PyDocument) (content outputFormat filePath : String) : Aggregate :=
  let a0 := initialAggregate content outputFormat filePath
  let a1 :=
    if flags.includeImages && flags.includeImageDescriptions && st.imageModelLoaded then
      pushFeature (addImageDescriptions o st doc a0) "image_descriptions"
    else a0
  let a2 :=
    if flags.includeFormulaEnrichment && st.formulaModelLoaded then
      pushFeature (enrichFormulas o st a1) "formula_enrichment"
    else a1
  let a3 :=
    if flags.includeTables then
      pushFeature (analyzeTables doc a2) "table_analysis"
    else a2
  let a4 :=
    if flags.enhanceContentFlag then
      pushFeature (enhanceContent a3) "content_enhancement"
    else a3
  pushFeature (analyzeDocumentStructure doc a4) "structure_analysis"

/-!
Reference definitions written from the spec's words (for the refinement
claim about the translator), and concrete sample inputs used by
witnesses and counterexamples.
-/

/-- Spec-side notion: `phrase` occurs as a case-insensitive substring of
`text`. -/
def occursCaseInsensitive (phrase text : String) : Bool :=
  containsSub (pyLower text).data (pyLower phrase).data

/-- Modelled from the spec: apply at most the first entry of `table`
whose key occurs as a case-insensitive substring, returning `text`
unchanged when no entry matches. -/
def firstSubstitutionCI (table : List (String × String)) (text : String) : String :=
  match table.find? (fun p => occursCaseInsensitive p.1 text) with
  | none => text
  | some p => pyReplace text p.1 p.2

/-- Modelled from the spec: apply at most the first entry of `table`
whose key occurs as a case-sensitive substring, returning `text`
unchanged when no entry matches. -/
def firstSubstitutionCS (table : List (String × String)) (text : String) : String :=
  match table.find? (fun p => pyContains text p.1) with
  | none => text
  | some p => pyReplace text p.1 p.2

/-- Sample oracle whose captioning model always raises and whose regex
engine finds no match. -/
def oracleFailCaption : Oracles :=
  { caption := fun _ => PyRes.exn "model error", finditer := fun _ _ => [] }

/-- Sample document whose `images` attribute is present but not
iterable, so the images stage body raises. -/
def docImagesRaise : PyDocument :=
  { imagesAttr := some (PyRes.exn "TypeError: images is not iterable"),
    tablesAttr := none, elementsAttr := none }

/-- Sample document with no optional attributes. -/
def docEmpty : PyDocument :=
  { imagesAttr := none, tablesAttr := none, elementsAttr := none }

/-- All feature flags set. -/
def allFlags : FeatureFlags :=
  { includeImages := true, includeTables := true, includeImageDescriptions := true,
    includeFormulaEnrichment := true, enhanceContentFlag := true }

/-- Both models loaded. -/
def allLoaded : HandlerState := { imageModelLoaded := true, formulaModelLoaded := true }

/-- Sample table whose `rows` attribute is present but `len(table.rows)`
raises. -/
def tableRaising : PyTable :=
  { rowsAttr := some (PyRes.exn "TypeError: object of type int has no len"), colsAttr := none }

/-- Sample regex match carrying a non-string group. -/
def matchBad : RegexMatch := { group := PyVal.nonStr 7, span := (0, 0) }

/-- A table object exposing both counts without failure. -/
def mkTableOk (ro co : Option Nat) : PyTable :=
  { rowsAttr := ro.map PyRes.ok, colsAttr := co.map PyRes.ok }

/-! ## Helper lemmas -/

theorem splitOnSubFuel_ne_nil (fuel : Nat) (s pat : List Char) :
    splitOnSubFuel fuel s pat ≠ [] := by
  cases fuel with
  | zero => simp [splitOnSubFuel]
  | succ n =>
    rcases s with _ | ⟨c, rest⟩
    · simp [splitOnSubFuel]
    · rw [splitOnSubFuel]
      repeat' split
      all_goals simp

/-- `str.split(sep)` always yields at least one piece. -/
theorem splitOnSub_ne_nil (s pat : List Char) : splitOnSub s pat ≠ [] :=
  splitOnSubFuel_ne_nil s.length s pat

theorem pySplit_length_ne_zero (s sep : String) : (pySplit s sep).length ≠ 0 := by
  have h := splitOnSub_ne_nil s.data sep.data
  simpa [pySplit] using h

theorem ratMin_eq_min (a b : ℚ) : ratMin a b = min a b := by
  rw [ratMin, min_def]

theorem ratMax_eq_max (a b : ℚ) : ratMax a b = max a b := by
  rw [ratMax, max_def]

theorem addImageDescriptions_frame (o : Oracles) (st : HandlerState) (doc : PyDocument)
    (a : Aggregate) :
    addImageDescriptions o st doc a =
      { a with imageDescriptions := (addImageDescriptions o st doc a).imageDescriptions } := by
  rcases st with ⟨iml, fml⟩
  rcases doc with ⟨ia, ta, ea⟩
  cases iml <;> rcases ia with _ | (⟨imgs⟩ | ⟨e⟩) <;> rfl

theorem enrichFormulas_frame (o : Oracles) (st : HandlerState) (a : Aggregate) :
    enrichFormulas o st a =
      { a with formulaEnrichments := (enrichFormulas o st a).formulaEnrichments } := by
  rcases st with ⟨iml, fml⟩
  cases fml <;> rfl

theorem analyzeTables_frame (doc : PyDocument) (a : Aggregate) :
    analyzeTables doc a = { a with tableAnalysis := (analyzeTables doc a).tableAnalysis } := by
  rcases doc with ⟨ia, ta, ea⟩
  rcases ta with _ | (⟨tbls⟩ | ⟨e⟩) <;> rfl

theorem enhanceContent_frame (a : Aggregate) :
    enhanceContent a = { a with contentEnhancement := (enhanceContent a).contentEnhancement } :=
  rfl

theorem analyzeDocumentStructure_frame (doc : PyDocument) (a : Aggregate) :
    analyzeDocumentStructure doc a =
      { a with documentStructure := (analyzeDocumentStructure doc a).documentStructure } := by
  rcases doc with ⟨ia, ta, ea⟩
  rcases ea with _ | (⟨els⟩ | ⟨e⟩) <;> rfl

theorem addImageDescriptions_metadata (o : Oracles) (st : HandlerState) (doc : PyDocument)
    (a : Aggregate) : (addImageDescriptions o st doc a).metadata = a.metadata := by
  rcases st with ⟨iml, fml⟩
  rcases doc with ⟨ia, ta, ea⟩
  cases iml <;> rcases ia with _ | (⟨imgs⟩ | ⟨e⟩) <;> rfl

theorem enrichFormulas_metadata (o : Oracles) (st : HandlerState) (a : Aggregate) :
    (enrichFormulas o st a).metadata = a.metadata := by
  rcases st with ⟨iml, fml⟩
  cases fml <;> rfl

theorem analyzeTables_metadata (doc : PyDocument) (a : Aggregate) :
    (analyzeTables doc a).metadata = a.metadata := by
  rcases doc with ⟨ia, ta, ea⟩
  rcases ta with _ | (⟨tbls⟩ | ⟨e⟩) <;> rfl

theorem enhanceContent_metadata (a : Aggregate) : (enhanceContent a).metadata = a.metadata :=
  rfl

theorem analyzeDocumentStructure_metadata (doc : PyDocument) (a : Aggregate) :
    (analyzeDocumentStructure doc a).metadata = a.metadata := by
  rcases doc with ⟨ia, ta, ea⟩
  rcases ea with _ | (⟨els⟩ | ⟨e⟩) <;> rfl

/-- The `features_used` list is a function of the flags and readiness
booleans alone: each stage name is appended iff its guard held,
regardless of what happened inside the stage. -/
theorem convertDocument_featuresUsed (o : Oracles) (st : HandlerState) (flags : FeatureFlags)
    (doc : PyDocument) (content outputFormat filePath : String) :
    (convertDocument o st flags doc content outputFormat filePath).metadata.featuresUsed =
      (if flags.includeImages && flags.includeImageDescriptions && st.imageModelLoaded then
          ["image_descriptions"] else [])
      ++ (if flags.includeFormulaEnrichment && st.formulaModelLoaded then
          ["formula_enrichment"] else [])
      ++ (if flags.includeTables then ["table_analysis"] else [])
      ++ (if flags.enhanceContentFlag then ["content_enhancement"] else [])
      ++ ["structure_analysis"] := by
  unfold convertDocument
  cases h1 : flags.includeImages && flags.includeImageDescriptions && st.imageModelLoaded <;>
  cases h2 : flags.includeFormulaEnrichment && st.formulaModelLoaded <;>
  cases h3 : flags.includeTables <;>
  cases h4 : flags.enhanceContentFlag <;>
    simp [h1, h2, h3, h4, pushFeature, addImageDescriptions_metadata, enrichFormulas_metadata,
      analyzeTables_metadata, enhanceContent_metadata, analyzeDocumentStructure_metadata,
      initialAggregate]

theorem imagesLoop_length (o : Oracles) (s : Nat) (l : List PyImage) :
    (imagesLoop o s l).length = l.length := by
  induction l generalizing s with
  | nil => rfl
  | cons hd tl ih => simp [imagesLoop, ih]

theorem imagesLoop_get? (o : Oracles) (s i : Nat) (l : List PyImage) :
    (imagesLoop o s l).get? i = (l.get? i).map (fun img => imageLoopItem o (s + i) img) := by
  induction l generalizing s i with
  | nil => simp [imagesLoop]
  | cons hd tl ih =>
    cases i with
    | zero => simp [imagesLoop]
    | succ n =>
      have hadd : s + 1 + n = s + (n + 1) := by omega
      have h2 := ih (s + 1) n
      rw [hadd] at h2
      simpa [imagesLoop] using h2

theorem tablesLoop_length (s : Nat) (l : List PyTable) :
    (tablesLoop s l).length = l.length := by
  induction l generalizing s with
  | nil => rfl
  | cons hd tl ih => simp [tablesLoop, ih]

theorem tablesLoop_get? (s i : Nat) (l : List PyTable) :
    (tablesLoop s l).get? i = (l.get? i).map (fun t => analyzeSingleTable t (s + i)) := by
  induction l generalizing s i with
  | nil => simp [tablesLoop]
  | cons hd tl ih =>
    cases i with
    | zero => simp [tablesLoop]
    | succ n =>
      have hadd : s + 1 + n = s + (n + 1) := by omega
      have h2 := ih (s + 1) n
      rw [hadd] at h2
      simpa [tablesLoop] using h2

/-- The English pass leaves the inner fallback caption unchanged (no
entry of the French-to-English table occurs in it case-sensitively). -/
theorem translateToEnglish_innerFallback :
    translateToEnglish "Image avec contenu visuel" = "Image avec contenu visuel" := by decide

/-- When the captioning call raises, the record built for that image
carries the inner fallback caption in both fields. -/
theorem imageLoopItem_exn (o : Oracles) (i : Nat) (img : PyImage) (e : String)
    (h : o.caption img = PyRes.exn e) :
    imageLoopItem o i img =
      { index := i, descriptionFr := "Image avec contenu visuel",
        descriptionEn := "Image avec contenu visuel" } := by
  unfold imageLoopItem generateImageDescription
  rw [h]
  dsimp only
  rw [translateToEnglish_innerFallback]

/-- A raising `len(table.rows)` makes the try-body of
`_analyze_single_table` raise, so the fallback dict is returned. -/
theorem analyzeSingleTable_exnRows (t : PyTable) (j : Nat) (e : String)
    (h : t.rowsAttr = some (PyRes.exn e)) :
    analyzeSingleTable t j = tableFallback j e := by
  unfold analyzeSingleTable analyzeSingleTableBody
  rw [h]

theorem translateFirstEn_eq (table : List (String × String)) (text : String) :
    translateFirstEn table text = firstSubstitutionCS table text := by
  induction table with
  | nil => rfl
  | cons hd tl ih =>
    rcases hd with ⟨fr, en⟩
    by_cases h : pyContains text fr = true
    · simp [translateFirstEn, firstSubstitutionCS, List.find?_cons, h]
    · simp only [translateFirstEn, firstSubstitutionCS, List.find?_cons] at *
      simp only [h, if_neg, Bool.false_eq_true, not_false_eq_true, ite_false] at *
      exact ih

theorem translateFirstFr_eq : ∀ (table : List (String × String)) (text : String),
    (∀ p ∈ table, pyLower p.1 = p.1) →
    translateFirstFr table text (pyLower text) = firstSubstitutionCI table text := by
  intro table
  induction table with
  | nil => intro text _; rfl
  | cons hd tl ih =>
    intro text hkeys
    rcases hd with ⟨en, fr⟩
    have hk : pyLower en = en := hkeys (en, fr) (List.mem_cons_self _ _)
    have hcond : occursCaseInsensitive en text = pyContains (pyLower text) en := by
      unfold occursCaseInsensitive pyContains
      rw [hk]
    by_cases h : pyContains (pyLower text) en = true
    · simp [translateFirstFr, firstSubstitutionCI, List.find?_cons, hcond, h]
    · have htl := ih text (fun p hp => hkeys p (List.mem_cons_of_mem _ hp))
      simp only [translateFirstFr, firstSubstitutionCI, List.find?_cons, hcond] at *
      simp only [h, Bool.false_eq_true, not_false_eq_true, ite_false] at *
      exact htl

/-! ## Claim theorems -/

/-- Claim C1 (amended): for every invocation of `convert_document` and
every combination of feature flags, `metadata.features_used` lists
exactly the stages whose flag was true and whose readiness precondition
was met (`structure_analysis` unconditionally), in the fixed stage
order — independent of how the stage executed: a stage in which an
exception was raised and caught is still listed (the append is
unconditional, since each stage swallows its exceptions internally),
and item failures inside a stage likewise leave the stage listed. -/
theorem features_used_flag_exact (o : Oracles) (st : HandlerState) (flags : FeatureFlags)
    (doc : PyDocument) (content outputFormat filePath : String) :
    (convertDocument o st flags doc content outputFormat filePath).metadata.featuresUsed =
      (if flags.includeImages && flags.includeImageDescriptions && st.imageModelLoaded then
          ["image_descriptions"] else [])
      ++ (if flags.includeFormulaEnrichment && st.formulaModelLoaded then
          ["formula_enrichment"] else [])
      ++ (if flags.includeTables then ["table_analysis"] else [])
      ++ (if flags.enhanceContentFlag then ["content_enhancement"] else [])
      ++ ["structure_analysis"] :=
  convertDocument_featuresUsed o st flags doc content outputFormat filePath

/-- Claim C1 counterexample: a run in which the images stage raises
internally (its try-body evaluates to an exception, so the stage
contributes no `image_descriptions` data) yet `"image_descriptions"`
still appears in `features_used`, refuting "a stage in which an
exception was raised and caught is omitted from features_used". -/
theorem failed_stage_still_listed :
    addImageDescriptionsBody oracleFailCaption allLoaded docImagesRaise
        (initialAggregate "" "markdown" "doc.pdf") =
      PyRes.exn "TypeError: images is not iterable"
    ∧ (convertDocument oracleFailCaption allLoaded allFlags docImagesRaise
        "" "markdown" "doc.pdf").imageDescriptions = none
    ∧ (convertDocument oracleFailCaption allLoaded allFlags docImagesRaise
        "" "markdown" "doc.pdf").metadata.featuresUsed =
      ["image_descriptions", "formula_enrichment", "table_analysis",
       "content_enhancement", "structure_analysis"] := by
  refine ⟨rfl, rfl, rfl⟩

/-- Claim C2: in each of the three collection loops (images, tables,
formula matches), an exception raised while processing one item is
caught at the item level, a designated fallback record appears in that
item's place, and the loop covers every remaining item (output length
equals input length, so no item failure aborts its stage). -/
theorem item_failure_isolation
    (o : Oracles) (images : List PyImage) (i : Nat) (img : PyImage) (e : String)
    (hImg : images.get? i = some img) (hCap : o.caption img = PyRes.exn e)
    (tables : List PyTable) (j : Nat) (t : PyTable) (e2 : String)
    (hTab : tables.get? j = some t) (hRows : t.rowsAttr = some (PyRes.exn e2))
    (ms : List RegexMatch) (k : Nat) (m : RegexMatch) (tag : Nat)
    (hM : ms.get? k = some m) (hG : m.group = PyVal.nonStr tag) :
    ((imagesLoop o 0 images).length = images.length
      ∧ (imagesLoop o 0 images).get? i =
          some { index := i, descriptionFr := "Image avec contenu visuel",
                 descriptionEn := "Image avec contenu visuel" })
    ∧ ((tablesLoop 0 tables).length = tables.length
      ∧ (tablesLoop 0 tables).get? j = some (tableFallback j e2))
    ∧ ((formulaMatchesLoop ms).length = ms.length
      ∧ (formulaMatchesLoop ms).get? k =
          some { original := PyVal.nonStr tag,
                 enriched := { formula := PyVal.nonStr tag, type := "unknown",
                               descriptionFr := "Formule non reconnue",
                               descriptionEn := "Unrecognized formula",
                               latex := none, simplified := none },
                 position := m.span }) := by
  refine ⟨⟨imagesLoop_length o 0 images, ?_⟩, ⟨tablesLoop_length 0 tables, ?_⟩,
    ⟨by simp [formulaMatchesLoop], ?_⟩⟩
  · rw [imagesLoop_get?, hImg]
    simp [imageLoopItem_exn o i img e hCap]
  · rw [tablesLoop_get?, hTab]
    simp [analyzeSingleTable_exnRows t j e2 hRows]
  · unfold formulaMatchesLoop
    rw [List.get?_map, hM]
    simp [formulaMatchItem, hG, enrichSingleFormula]

/-- Claim C2 witness: concrete failing items in each of the three
loops. -/
theorem item_failure_isolation_witness :
    ((imagesLoop oracleFailCaption 0 [{ id := 0 }]).get? 0 =
        some { index := 0, descriptionFr := "Image avec contenu visuel",
               descriptionEn := "Image avec contenu visuel" })
    ∧ ((tablesLoop 0 [tableRaising]).get? 0 =
        some (tableFallback 0 "TypeError: object of type int has no len"))
    ∧ ((formulaMatchesLoop [matchBad]).get? 0 =
        some { original := PyVal.nonStr 7,
               enriched := { formula := PyVal.nonStr 7, type := "unknown",
                             descriptionFr := "Formule non reconnue",
                             descriptionEn := "Unrecognized formula",
                             latex := none, simplified := none },
               position := (0, 0) }) := by
  have h := item_failure_isolation oracleFailCaption [{ id := 0 }] 0 { id := 0 } "model error"
    rfl rfl [tableRaising] 0 tableRaising "TypeError: object of type int has no len" rfl rfl
    [matchBad] 0 matchBad 7 rfl rfl
  exact ⟨h.1.2, h.2.1.2, h.2.2.2⟩

/-- Claim C3 (amended): for every image whose captioning call raises,
the exception is caught inside `_generate_image_description`, so the
record produced for that image equals the pair
(`description_fr = "Image avec contenu visuel"`,
`description_en = "Image avec contenu visuel"`) — not the loop-level
pair ("Description non disponible" / "Description not available"),
which is unreachable for captioning failures; no exception escapes the
images loop, and when the stage's flags and precondition hold the
`image_descriptions` stage is present in `features_used`. -/
theorem caption_failure_fallback_record
    (o : Oracles) (i : Nat) (img : PyImage) (e : String)
    (hCap : o.caption img = PyRes.exn e)
    (st : HandlerState) (flags : FeatureFlags) (doc : PyDocument)
    (content outputFormat filePath : String)
    (hIm : flags.includeImages = true) (hId : flags.includeImageDescriptions = true)
    (hLoaded : st.imageModelLoaded = true) :
    imageLoopItem o i img =
      { index := i, descriptionFr := "Image avec contenu visuel",
        descriptionEn := "Image avec contenu visuel" }
    ∧ "image_descriptions" ∈
        (convertDocument o st flags doc content outputFormat filePath).metadata.featuresUsed := by
  refine ⟨imageLoopItem_exn o i img e hCap, ?_⟩
  rw [convertDocument_featuresUsed]
  simp [hIm, hId, hLoaded]

/-- Claim C3 witness: a concrete raising captioning call, with all flags
on and the image model loaded. -/
theorem caption_failure_fallback_record_witness :
    oracleFailCaption.caption { id := 0 } = PyRes.exn "model error"
    ∧ (imageLoopItem oracleFailCaption 0 { id := 0 } =
        { index := 0, descriptionFr := "Image avec contenu visuel",
          descriptionEn := "Image avec contenu visuel" }
      ∧ "image_descriptions" ∈
          (convertDocument oracleFailCaption allLoaded allFlags docEmpty
            "" "markdown" "doc.pdf").metadata.featuresUsed) :=
  ⟨rfl, caption_failure_fallback_record oracleFailCaption 0 { id := 0 } "model error" rfl
    allLoaded allFlags docEmpty "" "markdown" "doc.pdf" rfl rfl rfl⟩

/-- Claim C3 counterexample: the captioning call raises, yet the record
produced is not the claimed fixed pair
("Description non disponible" / "Description not available"). -/
theorem caption_failure_not_spec_pair :
    oracleFailCaption.caption { id := 0 } = PyRes.exn "model error"
    ∧ imagesLoop oracleFailCaption 0 [{ id := 0 }] ≠
        [{ index := 0, descriptionFr := "Description non disponible",
           descriptionEn := "Description not available" }] := by
  exact ⟨rfl, by decide⟩

/-- Claim C4: the formula enricher classifies the delimiter-stripped
text by the ordered, mutually exclusive checks
(`+`/`-` → arithmetic; else `=` → equation; else `^`/`**` →
exponential; else mathematical_expression), and the four spec examples
evaluate as stated. -/
theorem formula_type_classification (s : String) :
    ((enrichSingleFormula (PyVal.str s)).type =
      (if pyContains (cleanFormulaStr s) "+" || pyContains (cleanFormulaStr s) "-" then
          "arithmetic"
       else if pyContains (cleanFormulaStr s) "=" then "equation"
       else if pyContains (cleanFormulaStr s) "^" || pyContains (cleanFormulaStr s) "**" then
          "exponential"
       else "mathematical_expression"))
    ∧ (enrichSingleFormula (PyVal.str "5 + 3")).type = "arithmetic"
    ∧ (enrichSingleFormula (PyVal.str "x = 5")).type = "equation"
    ∧ (enrichSingleFormula (PyVal.str "x^2")).type = "exponential"
    ∧ (enrichSingleFormula (PyVal.str "hello")).type = "mathematical_expression" := by
  refine ⟨?_, by decide, by decide, by decide, by decide⟩
  unfold enrichSingleFormula enrichSingleFormulaCore
  dsimp only
  split_ifs <;> rfl

/-- Claim C5: content-kind detection runs the table, image and formula
checks in that fixed order, each matching check unconditionally
overwriting the previous classification (so the detected kind is given
by testing the formula marker first, then image, then table), and in
particular any text carrying markers of all three kinds is classified
`document_with_formulas`. -/
theorem content_type_last_check_wins (content : String)
    (ht : hasTableMarker content = true) (hi : hasImageMarker content = true)
    (hf : hasFormulaMarker content = true) :
    detectContentType content = "document_with_formulas"
    ∧ ∀ c : String, detectContentType c =
        (if hasFormulaMarker c then "document_with_formulas"
         else if hasImageMarker c then "document_with_images"
         else if hasTableMarker c then "document_with_tables"
         else "document") := by
  have hgen : ∀ c : String, detectContentType c =
      (if hasFormulaMarker c then "document_with_formulas"
       else if hasImageMarker c then "document_with_images"
       else if hasTableMarker c then "document_with_tables"
       else "document") := by
    intro c
    unfold detectContentType
    cases h1 : hasTableMarker c <;> cases h2 : hasImageMarker c <;>
      cases h3 : hasFormulaMarker c <;> simp [h1, h2, h3]
  exact ⟨by rw [hgen]; simp [hf], hgen⟩

/-- Claim C5 witness: the spec's example text carries all three marker
kinds and is classified `document_with_formulas`. -/
theorem content_type_last_check_wins_witness :
    detectContentType "a table with | data and an image and $x$" = "document_with_formulas"
    ∧ hasTableMarker "a table with | data and an image and $x$" = true
    ∧ hasImageMarker "a table with | data and an image and $x$" = true
    ∧ hasFormulaMarker "a table with | data and an image and $x$" = true :=
  ⟨(content_type_last_check_wins "a table with | data and an image and $x$"
      (by decide) (by decide) (by decide)).1,
   by decide, by decide, by decide⟩

/-- Claim C6 (amended): the readability score equals
`100 − 0.5·(avg words per sentence) − 2·(avg chars per word)` clamped
to [0, 100], with words the whitespace-delimited tokens and sentences
the `'.'`-delimited pieces; it equals 0.0 exactly when the text has
zero words — a text with words but zero sentence-delimiters does NOT
yield 0.0, because `'.'`-splitting always produces at least one piece,
so the zero-sentences branch is unreachable (and the 50.0
internal-failure default is likewise unreachable for string input). -/
theorem readability_formula (text : String) :
    (pySplit text ".").length ≠ 0
    ∧ calculateReadability text =
        (if (pySplitWs text).length = 0 then 0
         else
           max 0 (min 100
             (100 - ((pySplitWs text).length : ℚ) / ((pySplit text ".").length : ℚ) * (1 / 2)
                - (((pySplitWs text).map String.length).sum : ℚ)
                    / ((pySplitWs text).length : ℚ) * 2)))
    ∧ 0 ≤ calculateReadability text ∧ calculateReadability text ≤ 100 := by
  have hs : (pySplit text ".").length ≠ 0 := pySplit_length_ne_zero text "."
  have hchar : calculateReadability text =
      (if (pySplitWs text).length = 0 then 0
       else
         max 0 (min 100
           (100 - ((pySplitWs text).length : ℚ) / ((pySplit text ".").length : ℚ) * (1 / 2)
              - (((pySplitWs text).map String.length).sum : ℚ)
                  / ((pySplitWs text).length : ℚ) * 2))) := by
    unfold calculateReadability
    simp only [hs, false_or, ratMax_eq_max, ratMin_eq_min]
  refine ⟨hs, hchar, ?_, ?_⟩
  · rw [hchar]
    split
    · norm_num
    · exact le_max_left _ _
  · rw [hchar]
    split
    · norm_num
    · exact max_le (by norm_num) (min_le_left _ _)

/-- Claim C6 counterexample: `"hello"` has no `'.'` delimiter and one
word, and its readability score is 89.5, not 0.0. -/
theorem readability_no_delimiter_not_zero :
    pyContains "hello" "." = false
    ∧ calculateReadability "hello" = 179 / 2
    ∧ calculateReadability "hello" ≠ 0 := by
  have hw : pySplitWs "hello" = ["hello"] := by decide
  have hsn : pySplit "hello" "." = ["hello"] := by decide
  have hml : ["hello"].map String.length = [5] := by decide
  have hval : calculateReadability "hello" = 179 / 2 := by
    norm_num [calculateReadability, hw, hsn, hml, ratMin, ratMax]
  exact ⟨rfl, hval, by rw [hval]; norm_num⟩

/-- Claim C7: `_analyze_single_table` reads each count only when the
attribute is exposed (an absent attribute leaves the count at zero
without raising), sets `has_headers` exactly when the row count is
non-zero, emits the summary template exactly when both counts are
non-zero (empty string otherwise), and the 3-rows/4-columns example
produces the spec's record. -/
theorem table_analysis_summary :
    (∀ (ro co : Option Nat) (i : Nat),
      analyzeSingleTable (mkTableOk ro co) i =
        { index := i, type := "data_table",
          descriptionFr := some (if 0 < ro.getD 0 then "Tableau avec en-têtes"
                                 else "Tableau de données"),
          descriptionEn := some (if 0 < ro.getD 0 then "Table with headers" else "Data table"),
          rows := some (ro.getD 0), columns := some (co.getD 0),
          hasHeaders := some (decide (0 < ro.getD 0)),
          dataTypes := some [],
          summary := some (if 0 < ro.getD 0 ∧ 0 < co.getD 0 then
              "Tableau de " ++ toString (ro.getD 0) ++ " lignes et "
                ++ toString (co.getD 0) ++ " colonnes"
            else ""),
          error := none })
    ∧ analyzeSingleTable (mkTableOk (some 3) (some 4)) 0 =
        { index := 0, type := "data_table", descriptionFr := some "Tableau avec en-têtes",
          descriptionEn := some "Table with headers", rows := some 3, columns := some 4,
          hasHeaders := some true, dataTypes := some [],
          summary := some "Tableau de 3 lignes et 4 colonnes", error := none } := by
  refine ⟨?_, by decide⟩
  intro ro co i
  rcases ro with _ | r <;> rcases co with _ | c <;> rfl

/-- Claim C8: each translation direction applies at most the first
matching entry of its fixed table and returns the text unchanged when
no entry matches; the forward (to-French) direction matches by
case-insensitive substring, the reverse by case-sensitive substring. -/
theorem translator_applies_first_match (text : String) :
    translateToFrench text = firstSubstitutionCI frTranslations text
    ∧ translateToEnglish text = firstSubstitutionCS enTranslations text := by
  constructor
  · unfold translateToFrench
    exact translateFirstFr_eq frTranslations text (by decide)
  · exact translateFirstEn_eq enTranslations text

/-- Claim C9: the orchestrator is a deterministic function of the
conversion result, the exported text, the flags, the readiness booleans
and the external-model responses — two calls on identical inputs yield
identical aggregates (the embedding required no mutable shared state). -/
theorem convertDocument_deterministic
    (o o2 : Oracles) (st st2 : HandlerState) (flags flags2 : FeatureFlags)
    (doc doc2 : PyDocument) (content content2 outputFormat outputFormat2
      filePath filePath2 : String)
    (ho : o = o2) (hst : st = st2) (hf : flags = flags2) (hd : doc = doc2)
    (hc : content = content2) (hof : outputFormat = outputFormat2)
    (hfp : filePath = filePath2) :
    convertDocument o st flags doc content outputFormat filePath =
      convertDocument o2 st2 flags2 doc2 content2 outputFormat2 filePath2 := by
  subst ho hst hf hd hc hof hfp
  rfl

/-- Claim C9 witness: two identical concrete invocations. -/
theorem convertDocument_deterministic_witness :
    convertDocument oracleFailCaption allLoaded allFlags docEmpty "" "markdown" "doc.pdf" =
      convertDocument oracleFailCaption allLoaded allFlags docEmpty "" "markdown" "doc.pdf" :=
  convertDocument_deterministic oracleFailCaption oracleFailCaption allLoaded allLoaded
    allFlags allFlags docEmpty docEmpty "" "" "markdown" "markdown" "doc.pdf" "doc.pdf"
    rfl rfl rfl rfl rfl rfl rfl

/-- Claim C10: every stage writes exactly one key of its own: for every
aggregate passed in, all fields other than the stage's designated key —
in particular `content`, `output_format`, the metadata and every key a
preceding stage may have written — are returned unchanged, on the
success path and on the internal-exception path alike; and on the
success path the stage's own key is written. -/
theorem stage_single_key_frame (o : Oracles) (st : HandlerState) (doc : PyDocument)
    (a : Aggregate) :
    (addImageDescriptions o st doc a =
        { a with imageDescriptions := (addImageDescriptions o st doc a).imageDescriptions })
    ∧ (enrichFormulas o st a =
        { a with formulaEnrichments := (enrichFormulas o st a).formulaEnrichments })
    ∧ (analyzeTables doc a = { a with tableAnalysis := (analyzeTables doc a).tableAnalysis })
    ∧ (enhanceContent a = { a with contentEnhancement := (enhanceContent a).contentEnhancement })
    ∧ (analyzeDocumentStructure doc a =
        { a with documentStructure := (analyzeDocumentStructure doc a).documentStructure })
    ∧ (∀ (imgs : List PyImage) tA eA (fm : Bool),
        (addImageDescriptions o { imageModelLoaded := true, formulaModelLoaded := fm }
            { imagesAttr := some (PyRes.ok imgs), tablesAttr := tA, elementsAttr := eA }
            a).imageDescriptions = some (imagesLoop o 0 imgs))
    ∧ (∀ im : Bool,
        (enrichFormulas o { imageModelLoaded := im, formulaModelLoaded := true }
            a).formulaEnrichments = some (formulasLoop o a.content))
    ∧ (∀ (tbls : List PyTable) iA eA,
        (analyzeTables { imagesAttr := iA, tablesAttr := some (PyRes.ok tbls), elementsAttr := eA }
            a).tableAnalysis = some (tablesLoop 0 tbls))
    ∧ ((enhanceContent a).contentEnhancement = some (contentEnhancementOf a.content))
    ∧ (∀ (els : List PyElement) iA tA,
        (analyzeDocumentStructure
            { imagesAttr := iA, tablesAttr := tA, elementsAttr := some (PyRes.ok els) }
            a).documentStructure = some (buildStructure els)) :=
  ⟨addImageDescriptions_frame o st doc a, enrichFormulas_frame o st a,
   analyzeTables_frame doc a, enhanceContent_frame a, analyzeDocumentStructure_frame doc a,
   fun _ _ _ _ => rfl, fun _ => rfl, fun _ _ _ => rfl, rfl, fun _ _ _ => rfl⟩

end DoclingSpec
